import Mathlib

/-
Verification of the credit-sea loan workflow core against its specification.

Shallow embedding conventions:
* Monetary and rate values are rationals (the source uses JS numbers; the spec
  reads them as exact decimal arithmetic).
* Calendar dates are abstracted to integer month counters: adding one calendar
  month is integer increment.  Day-of-month normalization of JS Date is out of
  scope of the claims treated here.
* Mongoose persistence is modelled by explicit stores (an application plus the
  list of loans, or a list of transactions); a controller is a function from a
  store and request arguments to a new store together with an optional error.
* Thrown/handled errors are the tags of the specification's error taxonomy.
-/

namespace CreditSea

/-- Application status enum from src/backend/src/types (PENDING | VERIFIED |
APPROVED | REJECTED). -/
inductive ApplicationStatus
  | PENDING
  | VERIFIED
  | APPROVED
  | REJECTED
  deriving DecidableEq

/-- Error taxonomy of the specification (section 7); controller failure paths
are mapped to these tags. -/
inductive Err
  | validationError
  | invalidStateTransition
  | conflictError
  | missingArgument
  | invalidOperation
  | invalidArgument
  | forbidden
  | notFound
  | serverError
  deriving DecidableEq

/-- Verifier outcome argument of verifyApplication. -/
inductive VerifyOutcome
  | VERIFIED
  | REJECTED
  deriving DecidableEq

/-- Admin outcome argument of approveApplication. -/
inductive ApproveOutcome
  | APPROVED
  | REJECTED
  deriving DecidableEq

/-- Application document (src/backend/src/models/Application.ts).  Identities
are natural numbers standing for ObjectIds; timestamps are omitted (no claim
mentions them). -/
structure Application where
  id : Nat
  userId : Nat
  amount : ℚ
  tenure : Nat
  empStatus : String
  reason : String
  empAddress : String
  status : ApplicationStatus
  verifierId : Option Nat
  adminId : Option Nat
  verificationNotes : Option String
  rejectionReason : Option String
  deriving DecidableEq

/-- applicationSchema.methods.canBeVerified: status === PENDING. -/
def Application.canBeVerified (a : Application) : Bool :=
  a.status = ApplicationStatus.PENDING

/-- applicationSchema.methods.canBeApproved: status === VERIFIED. -/
def Application.canBeApproved (a : Application) : Bool :=
  a.status = ApplicationStatus.VERIFIED

/-- applicationSchema.methods.isProcessed: status ∈ [APPROVED, REJECTED]. -/
def Application.isProcessed (a : Application) : Bool :=
  a.status = ApplicationStatus.APPROVED ∨ a.status = ApplicationStatus.REJECTED

/-- Loan document (src/backend/src/models/Loan.ts).  approvalDate and
nextPaymentDate are month counters. -/
structure Loan where
  id : Nat
  applicationId : Nat
  userId : Nat
  approvalDate : Int
  interestRate : ℚ
  principalLeft : ℚ
  tenureMonths : Nat
  isPaid : Bool
  emi : ℚ
  nextPaymentDate : Int
  totalAmount : ℚ
  deriving DecidableEq

/-- JS Math.round on the values at hand: floor(x + 1/2) (round half toward
positive infinity).  Rat.floor is used so that the function evaluates inside
the kernel. -/
def jsRound (x : ℚ) : ℚ :=
  ((Rat.floor (x + 1 / 2) : ℤ) : ℚ)

/-- Rounding to 2 decimal places as written in the source:
Math.round(x * 100) / 100. -/
def round2 (x : ℚ) : ℚ :=
  jsRound (x * 100) / 100

/-- loanSchema.methods.calculateEMI (Loan.ts lines 126-136):
monthlyRate = rate / (12 * 100);
emi = principal * monthlyRate * (1+monthlyRate)^tenure
        / ((1+monthlyRate)^tenure - 1);
return Math.round(emi * 100) / 100. -/
def calculateEMI (principal rate : ℚ) (tenure : Nat) : ℚ :=
  let monthlyRate := rate / (12 * 100)
  let emi := principal * monthlyRate * (1 + monthlyRate) ^ tenure /
    ((1 + monthlyRate) ^ tenure - 1)
  jsRound (emi * 100) / 100

/-- Spec-side EMI definition, written from the claim's words (C4): monthly
rate r = rate/1200, EMI = principal * r * (1+r)^tenure / ((1+r)^tenure - 1),
rounded half-up to 2 decimal places.  Kept separate from calculateEMI so the
two can be compared. -/
def computeEMIspec (principal annualRatePercent : ℚ) (tenureMonths : Nat) : ℚ :=
  let r := annualRatePercent / 1200
  let raw := principal * r * (1 + r) ^ tenureMonths / ((1 + r) ^ tenureMonths - 1)
  ((Int.floor (raw * 100 + 1 / 2) : ℤ) : ℚ) / 100

/-- loanSchema.methods.makePayment (Loan.ts lines 139-156).  Throwing is the
error result; this.save() is the ok result carrying the mutated document. -/
def makePayment (loan : Loan) (amount : ℚ) : Except Err Loan :=
  if amount ≤ 0 then
    Except.error Err.invalidArgument
  else
    let principalLeft := max 0 (loan.principalLeft - amount)
    if principalLeft = 0 then
      Except.ok { loan with principalLeft := principalLeft, isPaid := true }
    else
      Except.ok { loan with principalLeft := principalLeft,
                            nextPaymentDate := loan.nextPaymentDate + 1 }

/-- Folds makePayment over a list of amounts, failing the whole run if any
single payment throws. -/
def payAll (loan : Loan) : List ℚ → Option Loan
  | [] => some loan
  | a :: rest =>
    match makePayment loan a with
    | Except.error _ => none
    | Except.ok loan2 => payAll loan2 rest

/-- JS truthiness of the optional interestRate request field: undefined and 0
are falsy (approveApplication tests if (!interestRate)). -/
def jsTruthy (v : Option ℚ) : Bool :=
  match v with
  | none => false
  | some x => decide (x ≠ 0)

/-- Persistent state seen by the application-workflow controllers: the
application under scrutiny and the loans that reference it. -/
structure WorkStore where
  app : Application
  loans : List Loan
  deriving DecidableEq

/-- verifyApplication (applicationController.ts lines 171-211).  Guard: the
canBeVerified check; on failure the store is returned untouched.  On success
status, verifierId and verificationNotes are set (plus rejectionReason when
rejecting) and the document is saved. -/
def verifyApplicationRun (st : WorkStore) (verifierId : Nat)
    (outcome : VerifyOutcome) (notes : String) (rejectionReason : Option String) :
    WorkStore × Option Err :=
  if !st.app.canBeVerified then
    (st, some Err.invalidStateTransition)
  else
    let app1 := { st.app with
      status := match outcome with
        | VerifyOutcome.VERIFIED => ApplicationStatus.VERIFIED
        | VerifyOutcome.REJECTED => ApplicationStatus.REJECTED
      verifierId := some verifierId
      verificationNotes := some notes }
    let app2 := match outcome with
      | VerifyOutcome.REJECTED => { app1 with rejectionReason := rejectionReason }
      | VerifyOutcome.VERIFIED => app1
    ({ st with app := app2 }, none)

/-- approveApplication (applicationController.ts lines 214-297), with the
persistence outcome of loan.save() injected as loanSaveOk.  The statement
order of the source is kept: the canBeApproved guard, then the truthiness
check on interestRate, then application.save() persisting APPROVED, then the
Loan construction (calculateEMI, nextPaymentDate = now + 1 month) and
loan.save().  The catch block of the source reports a server error without
rolling anything back, so a failed loan save leaves the already-saved
application in the store. -/
def approveApplicationRun (st : WorkStore) (adminId : Nat)
    (outcome : ApproveOutcome) (interestRate : Option ℚ)
    (rejectionReason : Option String) (now : Int) (newLoanId : Nat)
    (loanSaveOk : Bool) : WorkStore × Option Err :=
  if !st.app.canBeApproved then
    (st, some Err.invalidStateTransition)
  else
    match outcome with
    | ApproveOutcome.APPROVED =>
      if !jsTruthy interestRate then
        (st, some Err.missingArgument)
      else
        let rate := interestRate.getD 0
        let app1 := { st.app with
          status := ApplicationStatus.APPROVED
          adminId := some adminId }
        let st1 := { st with app := app1 }
        let loan : Loan := {
          id := newLoanId
          applicationId := st.app.id
          userId := st.app.userId
          approvalDate := now
          interestRate := rate
          principalLeft := st.app.amount
          tenureMonths := st.app.tenure
          isPaid := false
          emi := calculateEMI st.app.amount rate st.app.tenure
          nextPaymentDate := now + 1
          totalAmount := st.app.amount }
        if loanSaveOk then
          ({ st1 with loans := st1.loans ++ [loan] }, none)
        else
          (st1, some Err.serverError)
    | ApproveOutcome.REJECTED =>
      ({ st with app := { st.app with
          status := ApplicationStatus.REJECTED
          adminId := some adminId
          rejectionReason := rejectionReason } }, none)

/-- createApplication (applicationController.ts lines 14-59): reject when the
user has an application in PENDING or VERIFIED state, then when the user has
an unpaid loan; otherwise append a fresh PENDING application.  On failure the
application list is returned untouched. -/
def createApplicationRun (apps : List Application) (loans : List Loan)
    (userId : Nat) (newId : Nat) (amount : ℚ) (tenure : Nat)
    (empStatus reason empAddress : String) : List Application × Option Err :=
  if apps.any (fun a => a.userId == userId &&
      (a.status == ApplicationStatus.PENDING ||
        a.status == ApplicationStatus.VERIFIED)) then
    (apps, some Err.conflictError)
  else if loans.any (fun l => l.userId == userId && !l.isPaid) then
    (apps, some Err.conflictError)
  else
    (apps ++ [{
      id := newId
      userId := userId
      amount := amount
      tenure := tenure
      empStatus := empStatus
      reason := reason
      empAddress := empAddress
      status := ApplicationStatus.PENDING
      verifierId := none
      adminId := none
      verificationNotes := none
      rejectionReason := none }], none)

/-- Transaction document (payment record) as created by the payment
controller: transactionType "EMI", status "COMPLETED". -/
structure Transaction where
  loanId : Nat
  amount : ℚ
  transactionType : String
  status : String
  deriving DecidableEq

/-- Sum of the amounts of the completed EMI-type transactions of a loan. -/
def emiCompletedSum (loanId : Nat) (txns : List Transaction) : ℚ :=
  ((txns.filter (fun t => t.loanId == loanId &&
    t.transactionType == "EMI" && t.status == "COMPLETED")).map
      Transaction.amount).sum

/-- makePayment controller (authController.ts lines 481-564): ownership check,
already-paid check, non-positive amount check, amount-exceeds-principal check;
then the Transaction is saved and loan.makePayment(amount) is applied. -/
def controllerMakePayment (loan : Loan) (txns : List Transaction)
    (userId : Nat) (amount : ℚ) : Except Err (Loan × List Transaction) :=
  if loan.userId ≠ userId then
    Except.error Err.forbidden
  else if loan.isPaid then
    Except.error Err.invalidOperation
  else if amount ≤ 0 then
    Except.error Err.invalidArgument
  else if loan.principalLeft < amount then
    Except.error Err.invalidArgument
  else
    let txn : Transaction := {
      loanId := loan.id
      amount := amount
      transactionType := "EMI"
      status := "COMPLETED" }
    match makePayment loan amount with
    | Except.error e => Except.error e
    | Except.ok loan2 => Except.ok (loan2, txns ++ [txn])

/-- Folds controllerMakePayment over a list of amounts; none if any request
fails. -/
def runPayments (loan : Loan) (txns : List Transaction) (userId : Nat) :
    List ℚ → Option (Loan × List Transaction)
  | [] => some (loan, txns)
  | a :: rest =>
    match controllerMakePayment loan txns userId a with
    | Except.error _ => none
    | Except.ok (loan2, txns2) => runPayments loan2 txns2 userId rest

/-- Row status of the derived payment schedule. -/
inductive RowStatus
  | PAID
  | PENDING
  deriving DecidableEq

/-- One row of the derived payment schedule (getPaymentSchedule push). -/
structure InstallmentRow where
  installmentNumber : Nat
  dueDate : Int
  emiAmount : ℚ
  principalComponent : ℚ
  interestComponent : ℚ
  remainingPrincipal : ℚ
  status : RowStatus
  deriving DecidableEq

/-- Monthly rate used by the schedule loop: interestRate / (12 * 100). -/
def monthlyRate (loan : Loan) : ℚ :=
  loan.interestRate / (12 * 100)

/-- Running remainingPrincipal of the schedule loop after k iterations:
starts at totalAmount, each iteration subtracts
principalComponent = emi - remainingPrincipal * monthlyRate.  The loop keeps
this value unclamped; only the pushed row clamps its display copy at 0. -/
def remAfter (loan : Loan) : Nat → ℚ
  | 0 => loan.totalAmount
  | k + 1 =>
    let rem := remAfter loan k
    rem - (loan.emi - rem * monthlyRate loan)

/-- Unrounded principal component of iteration k+1 of the schedule loop. -/
def rawPrincipalComponent (loan : Loan) (k : Nat) : ℚ :=
  loan.emi - remAfter loan k * monthlyRate loan

/-- The row pushed by iteration i (1-indexed) of getPaymentSchedule
(authController.ts lines 797-825): dueDate advances one month per iteration,
monetary components are stored rounded to 2 decimals, the stored remaining
principal is clamped at 0, and the status compares i against
(totalAmount - principalLeft) / emi. -/
def scheduleRow (loan : Loan) (i : Nat) : InstallmentRow :=
  let rem := remAfter loan (i - 1)
  let interestComponent := rem * monthlyRate loan
  let principalComponent := loan.emi - interestComponent
  { installmentNumber := i
    dueDate := loan.approvalDate + i
    emiAmount := loan.emi
    principalComponent := round2 principalComponent
    interestComponent := round2 interestComponent
    remainingPrincipal := max 0 (round2 (rem - principalComponent))
    status :=
      if (i : ℚ) ≤ (loan.totalAmount - loan.principalLeft) / loan.emi then
        RowStatus.PAID
      else
        RowStatus.PENDING }

/-- getPaymentSchedule: the loop for i in 1..tenureMonths pushing one row per
iteration. -/
def getPaymentSchedule (loan : Loan) : List InstallmentRow :=
  (List.range loan.tenureMonths).map (fun k => scheduleRow loan (k + 1))

/-- Sum of the stored (rounded) principalComponent over the whole schedule. -/
def principalComponentSum (loan : Loan) : ℚ :=
  ((getPaymentSchedule loan).map InstallmentRow.principalComponent).sum

/-- Fresh application of the demonstration user, sitting in REJECTED state
(terminal). -/
def rejectedApp : Application :=
  { id := 11, userId := 21, amount := 50000, tenure := 24
    empStatus := "EMPLOYED", reason := "laptop", empAddress := "x"
    status := ApplicationStatus.REJECTED
    verifierId := some 31, adminId := some 41
    verificationNotes := some ("checked")
    rejectionReason := some ("low income") }

/-- Store holding the rejected application, with no loans. -/
def rejectedStore : WorkStore :=
  { app := rejectedApp, loans := [] }

/-- An application in VERIFIED state, awaiting the admin decision. -/
def verifiedApp : Application :=
  { id := 12, userId := 22, amount := 120000, tenure := 12
    empStatus := "EMPLOYED", reason := "car", empAddress := "y"
    status := ApplicationStatus.VERIFIED
    verifierId := some 31, adminId := none
    verificationNotes := some ("ok")
    rejectionReason := none }

/-- Store holding the verified application, with no loans. -/
def verifiedStore : WorkStore :=
  { app := verifiedApp, loans := [] }

/-- An application sitting in PENDING state, owned by user 21. -/
def pendingApp : Application :=
  { id := 14, userId := 21, amount := 60000, tenure := 18
    empStatus := "EMPLOYED", reason := "bike", empAddress := "z"
    status := ApplicationStatus.PENDING
    verifierId := none, adminId := none
    verificationNotes := none, rejectionReason := none }

/-- Loan of the concrete payment scenario: totalAmount 10000, emi 1000,
principalLeft 10000. -/
def demoLoan : Loan :=
  { id := 1, applicationId := 12, userId := 22, approvalDate := 0
    interestRate := 12, principalLeft := 10000, tenureMonths := 10
    isPaid := false, emi := 1000, nextPaymentDate := 1, totalAmount := 10000 }

/-- demoLoan after one payment of 1000. -/
def demoLoanAfterOne : Loan :=
  { demoLoan with principalLeft := 9000, nextPaymentDate := 2 }

/-- A fresh loan used by the ledger-consistency witness. -/
def ledgerLoan : Loan :=
  { id := 3, applicationId := 13, userId := 23, approvalDate := 0
    interestRate := 10, principalLeft := 100, tenureMonths := 2
    isPaid := false, emi := 51, nextPaymentDate := 1, totalAmount := 100 }

/-- Result state of the ledger witness run on ledgerLoan: payments of 40 and
60 settle the loan and leave two completed EMI transactions. -/
def ledgerRes : Loan × List Transaction :=
  ({ ledgerLoan with principalLeft := 0, isPaid := true, nextPaymentDate := 2 },
   [{ loanId := 3
      amount := 40
      transactionType := "EMI"
      status := "COMPLETED" },
    { loanId := 3
      amount := 60
      transactionType := "EMI"
      status := "COMPLETED" }])

/-- Counterexample loan for the schedule round-trip bound: principal 1000 at
50% annual over 60 months, with the EMI produced by calculateEMI. -/
def cex8Loan : Loan :=
  { id := 9, applicationId := 19, userId := 29, approvalDate := 0
    interestRate := 50, principalLeft := 1000, tenureMonths := 60
    isPaid := false, emi := calculateEMI 1000 50 60
    nextPaymentDate := 1, totalAmount := 1000 }

/-- Small loan used by the schedule-row witness: principal 1200 at 12% annual
over 2 months. -/
def schedLoan : Loan :=
  { id := 5, applicationId := 15, userId := 25, approvalDate := 7
    interestRate := 12, principalLeft := 1200, tenureMonths := 2
    isPaid := false, emi := calculateEMI 1200 12 2
    nextPaymentDate := 8, totalAmount := 1200 }

/-
Batteries marks the arithmetic of Rat irreducible, which blocks evaluation of
the model inside the Decidable instances; the kernel itself reduces these
definitions fine, so their ordinary reducibility is restored here.
-/

set_option allowUnsafeReducibility true

attribute [semireducible] Rat.add Rat.sub Rat.mul Rat.inv Rat.ofScientific

/-! Helper lemmas. -/

/-- Rat.floor agrees with the mathematical floor. -/
theorem ratFloor_eq_intFloor (q : ℚ) : (Rat.floor q : ℤ) = Int.floor q := by
  rw [Rat.floor_def', Rat.floor_def]

/-- Rounding to 2 decimals moves a value by at most half a cent. -/
theorem abs_round2_sub_le (x : ℚ) : |round2 x - x| ≤ 1 / 200 := by
  rw [round2, jsRound, ratFloor_eq_intFloor]
  have h1 : ((Int.floor (x * 100 + 1 / 2) : ℤ) : ℚ) ≤ x * 100 + 1 / 2 :=
    Int.floor_le _
  have h2 : x * 100 + 1 / 2 < (Int.floor (x * 100 + 1 / 2) : ℤ) + 1 :=
    Int.lt_floor_add_one _
  rw [abs_le]
  constructor <;> [skip; skip] <;> linarith

/-- Unfolding makePayment at a positive amount. -/
theorem makePayment_pos (loan : Loan) (amount : ℚ) (hpos : 0 < amount) :
    makePayment loan amount =
      (if max 0 (loan.principalLeft - amount) = 0 then
        Except.ok { loan with principalLeft := max 0 (loan.principalLeft - amount),
                              isPaid := true }
      else
        Except.ok { loan with principalLeft := max 0 (loan.principalLeft - amount),
                              nextPaymentDate := loan.nextPaymentDate + 1 }) := by
  rw [makePayment, if_neg (not_le.mpr hpos)]

/-- Claim C1: verifyApplication succeeds only on a PENDING application and
approveApplication only on a VERIFIED one; on any other state either
transition fails with InvalidStateTransition, the stored application keeps
its status and every other field, and no Loan is created. -/
theorem claim1_transition_guards (st : WorkStore) (vid : Nat) (oc1 : VerifyOutcome)
    (notes : String) (rr1 : Option String) (aid : Nat) (oc2 : ApproveOutcome)
    (rate : Option ℚ) (rr2 : Option String) (now : Int) (lid : Nat) (ok : Bool) :
    ((verifyApplicationRun st vid oc1 notes rr1).2 = none →
      st.app.status = ApplicationStatus.PENDING) ∧
    (st.app.status ≠ ApplicationStatus.PENDING →
      verifyApplicationRun st vid oc1 notes rr1 = (st, some Err.invalidStateTransition)) ∧
    ((approveApplicationRun st aid oc2 rate rr2 now lid ok).2 = none →
      st.app.status = ApplicationStatus.VERIFIED) ∧
    (st.app.status ≠ ApplicationStatus.VERIFIED →
      approveApplicationRun st aid oc2 rate rr2 now lid ok
        = (st, some Err.invalidStateTransition)) := by
  unfold verifyApplicationRun approveApplicationRun
  by_cases h1 : st.app.status = ApplicationStatus.PENDING <;>
    by_cases h2 : st.app.status = ApplicationStatus.VERIFIED <;>
      cases oc1 <;> cases oc2 <;>
        simp [Application.canBeVerified, Application.canBeApproved, h1, h2]

/-- Claim C1 witness: on the REJECTED application both transitions fail with
InvalidStateTransition, keep the store untouched, and create no loan. -/
theorem claim1_transition_guards_witness :
    verifyApplicationRun rejectedStore 31 VerifyOutcome.VERIFIED ("n") none
      = (rejectedStore, some Err.invalidStateTransition) ∧
    approveApplicationRun rejectedStore 41 ApproveOutcome.APPROVED (some 10) none 0 7 true
      = (rejectedStore, some Err.invalidStateTransition) :=
  ⟨(claim1_transition_guards rejectedStore 31 VerifyOutcome.VERIFIED ("n") none 41
      ApproveOutcome.APPROVED (some 10) none 0 7 true).2.1 (by decide),
    (claim1_transition_guards rejectedStore 31 VerifyOutcome.VERIFIED ("n") none 41
      ApproveOutcome.APPROVED (some 10) none 0 7 true).2.2.2 (by decide)⟩

/-- Claim C10: on a VERIFIED application, approving with interestRate 0 fails
the falsiness check if (!interestRate) with MissingArgument, leaves the store
untouched and creates no loan. -/
theorem claim10_zero_rate_rejected (st : WorkStore) (aid : Nat) (rr : Option String)
    (now : Int) (lid : Nat) (ok : Bool)
    (h : st.app.status = ApplicationStatus.VERIFIED) :
    approveApplicationRun st aid ApproveOutcome.APPROVED (some 0) rr now lid ok
      = (st, some Err.missingArgument) := by
  unfold approveApplicationRun
  simp [Application.canBeApproved, h, jsTruthy]

/-- Claim C10 witness: concrete VERIFIED application, rate 0. -/
theorem claim10_zero_rate_rejected_witness :
    approveApplicationRun verifiedStore 41 ApproveOutcome.APPROVED (some 0) none 0 7 true
      = (verifiedStore, some Err.missingArgument) :=
  claim10_zero_rate_rejected verifiedStore 41 none 0 7 true (by decide)

/-- Claim C6: a successful payment on an unpaid loan leaves nextPaymentDate
untouched when it zeroes the principal, and otherwise advances it by exactly
one calendar month whatever the amount paid. -/
theorem claim6_due_date_advance (loan : Loan) (amount : ℚ) (loan2 : Loan)
    (hunpaid : loan.isPaid = false) (hpos : 0 < amount)
    (hrun : makePayment loan amount = Except.ok loan2) :
    (loan2.principalLeft = 0 → loan2.nextPaymentDate = loan.nextPaymentDate) ∧
    (loan2.principalLeft ≠ 0 → loan2.nextPaymentDate = loan.nextPaymentDate + 1) := by
  rw [makePayment_pos loan amount hpos] at hrun
  by_cases hz : max 0 (loan.principalLeft - amount) = 0
  · rw [if_pos hz] at hrun
    cases hrun
    simp [hz]
  · rw [if_neg hz] at hrun
    cases hrun
    simp [hz]

/-- Preservation of the ledger invariants of the Loan model along any run of
successful payments: principal stays non-negative, isPaid tracks principal
reaching 0 exactly, and isPaid never reverts. -/
theorem payAll_invariant (amounts : List ℚ) :
    ∀ loan loan2 : Loan, 0 ≤ loan.principalLeft →
      loan.isPaid = decide (loan.principalLeft = 0) →
      payAll loan amounts = some loan2 →
      0 ≤ loan2.principalLeft ∧ loan2.isPaid = decide (loan2.principalLeft = 0) ∧
        (loan.isPaid = true → loan2.isPaid = true) := by
  induction amounts with
  | nil =>
    intro loan loan2 hp hinv hrun
    rw [payAll] at hrun
    injection hrun with h
    subst h
    exact ⟨hp, hinv, fun h => h⟩
  | cons a rest ih =>
    intro loan loan2 hp hinv hrun
    rw [payAll] at hrun
    by_cases ha : a ≤ 0
    · rw [makePayment, if_pos ha] at hrun
      simp at hrun
    · have hpos : 0 < a := lt_of_not_le ha
      rw [makePayment_pos loan a hpos] at hrun
      by_cases hz : max 0 (loan.principalLeft - a) = 0
      · rw [if_pos hz] at hrun
        have h2 := ih _ loan2 (by simp [hz]) (by simp [hz]) hrun
        exact ⟨h2.1, h2.2.1, fun _ => h2.2.2 rfl⟩
      · rw [if_neg hz] at hrun
        have hfalse : loan.isPaid = false := by
          by_contra hcon
          have htrue : loan.isPaid = true := by
            cases h : loan.isPaid
            · exact absurd h hcon
            · rfl
          rw [htrue] at hinv
          have hpz : loan.principalLeft = 0 := of_decide_eq_true hinv.symm
          apply hz
          rw [hpz]
          simp
          linarith
        have h2 := ih _ loan2 (le_max_left 0 _) (by simp [hz, hfalse]) hrun
        refine ⟨h2.1, h2.2.1, fun hcon => ?_⟩
        rw [hfalse] at hcon
        exact absurd hcon (by simp)

/-- Claim C2: along any run of successful payments with positive amounts from
a consistent loan, principalLeft never goes negative (the ledger clamps at 0),
isPaid is true exactly when principalLeft is 0, and isPaid never reverts to
false; concretely, on the 10000/1000 loan seven payments of 1000 leave 3000
unpaid, and a final payment of 3000 zeroes the principal and marks the loan
paid. -/
theorem claim2_principal_invariants (loan : Loan) (amounts : List ℚ) (loan2 : Loan)
    (hp : 0 ≤ loan.principalLeft)
    (hinv : loan.isPaid = decide (loan.principalLeft = 0))
    (hrun : payAll loan amounts = some loan2) :
    (0 ≤ loan2.principalLeft ∧
      (loan2.isPaid = true ↔ loan2.principalLeft = 0) ∧
      (loan.isPaid = true → loan2.isPaid = true)) ∧
    (payAll demoLoan (List.replicate 7 1000)).map (fun l => (l.principalLeft, l.isPaid))
      = some (3000, false) ∧
    (payAll demoLoan (List.replicate 7 1000 ++ [3000])).map
        (fun l => (l.principalLeft, l.isPaid)) = some (0, true) := by
  have h := payAll_invariant amounts loan loan2 hp hinv hrun
  refine ⟨⟨h.1, ?_, h.2.2⟩, by decide, by decide⟩
  rw [h.2.1]
  exact ⟨of_decide_eq_true, decide_eq_true⟩

/-- Claim C2 witness: one payment of 1000 on the demonstration loan. -/
theorem claim2_principal_invariants_witness :
    (0 ≤ demoLoanAfterOne.principalLeft ∧
      (demoLoanAfterOne.isPaid = true ↔ demoLoanAfterOne.principalLeft = 0) ∧
      (demoLoan.isPaid = true → demoLoanAfterOne.isPaid = true)) ∧
    (payAll demoLoan (List.replicate 7 1000)).map (fun l => (l.principalLeft, l.isPaid))
      = some (3000, false) ∧
    (payAll demoLoan (List.replicate 7 1000 ++ [3000])).map
        (fun l => (l.principalLeft, l.isPaid)) = some (0, true) :=
  claim2_principal_invariants demoLoan [1000] demoLoanAfterOne (by decide) (by decide)
    (by rfl)

/-- Claim C9: submission fails with ConflictError and appends no application
when the customer has an application in PENDING or VERIFIED state, or an
unpaid loan. -/
theorem claim9_submission_conflicts (apps : List Application) (loans : List Loan)
    (uid newId : Nat) (amount : ℚ) (tenure : Nat) (es rsn addr : String) :
    ((∃ a ∈ apps, a.userId = uid ∧
        (a.status = ApplicationStatus.PENDING ∨ a.status = ApplicationStatus.VERIFIED)) →
      createApplicationRun apps loans uid newId amount tenure es rsn addr
        = (apps, some Err.conflictError)) ∧
    ((∃ l ∈ loans, l.userId = uid ∧ l.isPaid = false) →
      createApplicationRun apps loans uid newId amount tenure es rsn addr
        = (apps, some Err.conflictError)) := by
  constructor
  · intro hex
    have hany : (apps.any fun a => a.userId == uid &&
        (a.status == ApplicationStatus.PENDING ||
          a.status == ApplicationStatus.VERIFIED)) = true := by
      simp only [List.any_eq_true, Bool.and_eq_true, Bool.or_eq_true, beq_iff_eq]
      exact hex
    rw [createApplicationRun, if_pos hany]
  · intro hex
    have hl : (loans.any fun l => l.userId == uid && !l.isPaid) = true := by
      simp only [List.any_eq_true, Bool.and_eq_true, Bool.not_eq_true', beq_iff_eq]
      exact hex
    by_cases hany : (apps.any fun a => a.userId == uid &&
        (a.status == ApplicationStatus.PENDING ||
          a.status == ApplicationStatus.VERIFIED)) = true
    · rw [createApplicationRun, if_pos hany]
    · rw [createApplicationRun, if_neg hany, if_pos hl]

/-- Claim C9 witness: a second submission by user 21, who already owns the
PENDING application, returns ConflictError and the application list is
unchanged. -/
theorem claim9_submission_conflicts_witness :
    createApplicationRun [pendingApp] [] 21 99 5000 6 ("E") ("r") ("a")
      = ([pendingApp], some Err.conflictError) :=
  (claim9_submission_conflicts [pendingApp] [] 21 99 5000 6 ("E") ("r") ("a")).1
    (by decide)

/-- Claim C3 (code behavior at the failing execution): approving the VERIFIED
application with rate 10 in an execution whose loan persistence fails leaves
the application saved as APPROVED with no loan referencing it — the
approval-plus-loan-creation pair is not atomic in the source, which saves the
application first and never rolls it back. -/
theorem claim3_approval_not_atomic :
    (approveApplicationRun verifiedStore 41 ApproveOutcome.APPROVED (some 10) none 0 7
        false).1.app.status = ApplicationStatus.APPROVED ∧
    (approveApplicationRun verifiedStore 41 ApproveOutcome.APPROVED (some 10) none 0 7
        false).1.loans = [] ∧
    (approveApplicationRun verifiedStore 41 ApproveOutcome.APPROVED (some 10) none 0 7
        false).2 = some Err.serverError := by decide

/-- Claim C4 counterexample: on principal 120000, rate 12, tenure 12 the code
returns 10661.85, not 10661.90: at the claimed approximate value the error is
five cents, well beyond the 2-decimal precision the claim itself states. -/
theorem claim4_counterexample :
    calculateEMI 120000 12 12 = (1066185 : ℚ) / 100 ∧
    calculateEMI 120000 12 12 ≠ (1066190 : ℚ) / 100 ∧
    ¬ |calculateEMI 120000 12 12 - (1066190 : ℚ) / 100| < 5 / 100 := by decide

/-- Claim C4 as amended: on the claimed domain calculateEMI agrees with the
spec formula (monthly rate rate/1200, amortization quotient, round half-up to
2 decimals), and the concrete example evaluates to 10661.85. -/
theorem claim4_emi_formula (p r : ℚ) (t : Nat)
    (hp : 0 < p) (hr : 0 < r) (hr2 : r ≤ 50) (ht1 : 1 ≤ t) (ht2 : t ≤ 360) :
    calculateEMI p r t = computeEMIspec p r t ∧
    calculateEMI 120000 12 12 = (1066185 : ℚ) / 100 := by
  constructor
  · simp only [calculateEMI, computeEMIspec, jsRound, ratFloor_eq_intFloor]
    norm_num
  · decide

/-- Claim C4 witness: the formula agreement and the concrete value at
principal 120000, rate 12, tenure 12. -/
theorem claim4_emi_formula_witness :
    calculateEMI 120000 12 12 = computeEMIspec 120000 12 12 ∧
    calculateEMI 120000 12 12 = (1066185 : ℚ) / 100 :=
  claim4_emi_formula 120000 12 12 (by norm_num) (by norm_num) (by norm_num)
    (by norm_num) (by norm_num)

/-- The schedule loop state equation, read backwards from row index i ≥ 1. -/
theorem remAfter_pred (loan : Loan) (i : Nat) (h : 1 ≤ i) :
    remAfter loan i
      = remAfter loan (i - 1) - (loan.emi - remAfter loan (i - 1) * monthlyRate loan) := by
  conv_lhs => rw [show i = i - 1 + 1 by omega, remAfter]

/-- Claim C5: the schedule has exactly tenureMonths rows, and row i carries
due date approvalDate + i months, interest = (running) remainingPrincipal ×
monthlyRate, principal = EMI - interest (both stored at 2 decimals), the
decreased remaining principal floored at 0, and status PAID exactly when
i ≤ floor((totalAmount - principalLeft) / EMI). -/
theorem claim5_schedule_rows (loan : Loan) (i : Nat) (h1 : 1 ≤ i)
    (h2 : i ≤ loan.tenureMonths) :
    (getPaymentSchedule loan).length = loan.tenureMonths ∧
    (getPaymentSchedule loan)[i - 1]? = some
      { installmentNumber := i
        dueDate := loan.approvalDate + i
        emiAmount := loan.emi
        principalComponent := round2 (loan.emi - remAfter loan (i - 1) * monthlyRate loan)
        interestComponent := round2 (remAfter loan (i - 1) * monthlyRate loan)
        remainingPrincipal := max 0 (round2 (remAfter loan i))
        status := if (i : ℤ) ≤ Int.floor ((loan.totalAmount - loan.principalLeft) / loan.emi)
          then RowStatus.PAID else RowStatus.PENDING } := by
  refine ⟨by simp [getPaymentSchedule], ?_⟩
  have hi : i - 1 < loan.tenureMonths := by omega
  rw [getPaymentSchedule, List.getElem?_map, List.getElem?_range hi]
  simp only [Option.map_some', Option.some.injEq]
  rw [show i - 1 + 1 = i by omega]
  simp only [scheduleRow, InstallmentRow.mk.injEq, true_and]
  refine ⟨?_, ?_⟩
  · rw [remAfter_pred loan i h1]
  · congr 1
    rw [Int.le_floor]
    push_cast
    rfl

/-- Claim C5 witness: the first row of the 1200 at 12 percent over 2 months
schedule. -/
theorem claim5_schedule_rows_witness :
    (getPaymentSchedule schedLoan).length = schedLoan.tenureMonths ∧
    (getPaymentSchedule schedLoan)[1 - 1]? = some
      { installmentNumber := 1
        dueDate := schedLoan.approvalDate + (1 : Nat)
        emiAmount := schedLoan.emi
        principalComponent := round2 (schedLoan.emi
          - remAfter schedLoan (1 - 1) * monthlyRate schedLoan)
        interestComponent := round2 (remAfter schedLoan (1 - 1) * monthlyRate schedLoan)
        remainingPrincipal := max 0 (round2 (remAfter schedLoan 1))
        status := if ((1 : Nat) : ℤ)
            ≤ Int.floor ((schedLoan.totalAmount - schedLoan.principalLeft) / schedLoan.emi)
          then RowStatus.PAID else RowStatus.PENDING } :=
  claim5_schedule_rows schedLoan 1 (by decide) (by decide)

/-- Appending a completed EMI transaction of the loan adds its amount to the
completed-EMI sum. -/
theorem emiCompletedSum_append_emi (lid : Nat) (txns : List Transaction)
    (t : Transaction) (h1 : t.loanId = lid) (h2 : t.transactionType = "EMI")
    (h3 : t.status = "COMPLETED") :
    emiCompletedSum lid (txns ++ [t]) = emiCompletedSum lid txns + t.amount := by
  unfold emiCompletedSum
  rw [List.filter_append, List.map_append, List.sum_append]
  simp [List.filter, h1, h2, h3]

/-- A successful payment request decreases the principal by exactly the
amount paid (the clamp is inactive because the controller rejects
overpayments) and appends one completed EMI transaction. -/
theorem controllerMakePayment_ok (loan : Loan) (txns : List Transaction) (uid : Nat)
    (a : ℚ) (loan2 : Loan) (txns2 : List Transaction)
    (h : controllerMakePayment loan txns uid a = Except.ok (loan2, txns2)) :
    loan2.id = loan.id ∧ loan2.totalAmount = loan.totalAmount ∧
    loan2.principalLeft = loan.principalLeft - a ∧
    txns2 = txns ++ [{ loanId := loan.id
                       amount := a
                       transactionType := "EMI"
                       status := "COMPLETED" }] := by
  unfold controllerMakePayment at h
  split_ifs at h with hu hpaid hneg hover
  have hpos : 0 < a := lt_of_not_le hneg
  have hle : a ≤ loan.principalLeft := le_of_not_lt hover
  rw [makePayment_pos loan a hpos] at h
  have hmax : max 0 (loan.principalLeft - a) = loan.principalLeft - a :=
    max_eq_right (by linarith)
  by_cases hz : max 0 (loan.principalLeft - a) = 0
  · rw [if_pos hz] at h
    injection h with h
    injection h with ha hb
    subst ha
    subst hb
    exact ⟨rfl, rfl, hmax, rfl⟩
  · rw [if_neg hz] at h
    injection h with h
    injection h with ha hb
    subst ha
    subst hb
    exact ⟨rfl, rfl, hmax, rfl⟩

/-- The ledger invariant is preserved along any run of successful payment
requests. -/
theorem runPayments_ledger (amounts : List ℚ) :
    ∀ (loan : Loan) (txns : List Transaction) (uid : Nat)
      (res : Loan × List Transaction),
      emiCompletedSum loan.id txns = loan.totalAmount - loan.principalLeft →
      runPayments loan txns uid amounts = some res →
      emiCompletedSum res.1.id res.2 = res.1.totalAmount - res.1.principalLeft := by
  induction amounts with
  | nil =>
    intro loan txns uid res hinv hrun
    rw [runPayments] at hrun
    injection hrun with h
    subst h
    exact hinv
  | cons a rest ih =>
    intro loan txns uid res hinv hrun
    rw [runPayments] at hrun
    cases hcall : controllerMakePayment loan txns uid a with
    | error e =>
      rw [hcall] at hrun
      simp at hrun
    | ok p =>
      rw [hcall] at hrun
      obtain ⟨loan2, txns2⟩ := p
      have hspec := controllerMakePayment_ok loan txns uid a loan2 txns2 hcall
      apply ih loan2 txns2 uid res _ hrun
      rw [hspec.1, hspec.2.2.2,
        emiCompletedSum_append_emi loan.id txns _ rfl rfl rfl, hinv,
        hspec.2.1, hspec.2.2.1]
      ring

/-- Claim C7: starting from a fresh loan with an empty ledger, after any run
of successful payments the amounts of the completed EMI transactions sum to
totalAmount minus principalLeft. -/
theorem claim7_ledger_consistency (loan : Loan) (uid : Nat) (amounts : List ℚ)
    (res : Loan × List Transaction)
    (hfresh : loan.principalLeft = loan.totalAmount)
    (hrun : runPayments loan [] uid amounts = some res) :
    emiCompletedSum res.1.id res.2 = res.1.totalAmount - res.1.principalLeft := by
  apply runPayments_ledger amounts loan [] uid res _ hrun
  rw [hfresh]
  simp [emiCompletedSum]

/-- Claim C7 witness: payments of 40 and 60 on the fresh 100 loan leave
completed EMI transactions summing to 100 = totalAmount - principalLeft. -/
theorem claim7_ledger_consistency_witness :
    emiCompletedSum ledgerRes.1.id ledgerRes.2
      = ledgerRes.1.totalAmount - ledgerRes.1.principalLeft :=
  claim7_ledger_consistency ledgerLoan 23 [40, 60] ledgerRes (by decide) (by decide)

/-- Telescoping of the unrounded principal components of the schedule loop. -/
theorem sum_rawPrincipal (loan : Loan) (n : Nat) :
    ((List.range n).map (rawPrincipalComponent loan)).sum
      = loan.totalAmount - remAfter loan n := by
  induction n with
  | zero => simp [remAfter]
  | succ k ih =>
    rw [List.range_succ, List.map_append, List.sum_append]
    simp only [List.map_cons, List.map_nil, List.sum_cons, List.sum_nil]
    rw [ih]
    simp only [remAfter, rawPrincipalComponent]
    ring

/-- The rounded principal components stay within n half-cents of the
unrounded ones. -/
theorem sum_round2_close (loan : Loan) (n : Nat) :
    |((List.range n).map (fun k => round2 (rawPrincipalComponent loan k))).sum
      - ((List.range n).map (rawPrincipalComponent loan)).sum|
      ≤ (n : ℚ) * (1 / 200) := by
  induction n with
  | zero => simp
  | succ k ih =>
    rw [List.range_succ, List.map_append, List.sum_append,
      List.map_append, List.sum_append]
    simp only [List.map_cons, List.map_nil, List.sum_cons, List.sum_nil]
    have hstep := abs_round2_sub_le (rawPrincipalComponent loan k)
    have htri := abs_add
      (((List.range k).map (fun j => round2 (rawPrincipalComponent loan j))).sum
        - ((List.range k).map (rawPrincipalComponent loan)).sum)
      (round2 (rawPrincipalComponent loan k) - rawPrincipalComponent loan k)
    push_cast
    have hgoal := add_le_add ih hstep
    calc |((List.range k).map (fun j => round2 (rawPrincipalComponent loan j))).sum
          + (round2 (rawPrincipalComponent loan k) + 0)
          - (((List.range k).map (rawPrincipalComponent loan)).sum
            + (rawPrincipalComponent loan k + 0))|
        = |(((List.range k).map (fun j => round2 (rawPrincipalComponent loan j))).sum
            - ((List.range k).map (rawPrincipalComponent loan)).sum)
          + (round2 (rawPrincipalComponent loan k) - rawPrincipalComponent loan k)| := by
          ring_nf
      _ ≤ _ := htri
      _ ≤ (k : ℚ) * (1 / 200) + 1 / 200 := hgoal
      _ = ((k : ℚ) + 1) * (1 / 200) := by ring

/-- The schedule's stored principal components are the rounded unrounded
components, via map composition. -/
theorem principalComponentSum_eq (loan : Loan) :
    principalComponentSum loan
      = ((List.range loan.tenureMonths).map
          (fun k => round2 (rawPrincipalComponent loan k))).sum := by
  unfold principalComponentSum getPaymentSchedule
  rw [List.map_map]
  rfl

/-- Claim C8 counterexample: for principal 1000 at 50 percent over 60 months
with the EMI produced by calculateEMI, the schedule's principal components
sum to 998.79, which misses totalAmount 1000 by 1.21, beyond the claimed
epsilon 60 × 0.01 = 0.60: the half-cent rounding of the EMI is amplified by
the annuity factor. -/
theorem claim8_counterexample :
    ¬ |principalComponentSum cex8Loan - cex8Loan.totalAmount|
      ≤ (cex8Loan.tenureMonths : ℚ) * (1 / 100) := by
  set_option maxRecDepth 400000 in decide

/-- Claim C8 as amended: the schedule's stored principal components sum to
totalAmount minus the loop's final running remaining principal, up to the
per-row rounding of at most tenureMonths half-cents; the deviation from
totalAmount itself is the final running remaining principal, which the
claimed bound does not cover. -/
theorem claim8_schedule_roundtrip (loan : Loan) :
    |principalComponentSum loan
      - (loan.totalAmount - remAfter loan loan.tenureMonths)|
      ≤ (loan.tenureMonths : ℚ) * (1 / 200) := by
  rw [principalComponentSum_eq, ← sum_rawPrincipal loan loan.tenureMonths]
  exact sum_round2_close loan loan.tenureMonths

/-- Claim C6 witness: paying 1000 on the demonstration loan leaves 9000
outstanding and advances the due date by one month. -/
theorem claim6_due_date_advance_witness :
    demoLoanAfterOne.principalLeft ≠ 0 ∧
    demoLoanAfterOne.nextPaymentDate = demoLoan.nextPaymentDate + 1 :=
  ⟨by decide,
    (claim6_due_date_advance demoLoan 1000 demoLoanAfterOne (by decide) (by decide)
      (by rfl)).2 (by decide)⟩

end CreditSea
